import Mathlib

/-!
Verification of `blank_slot.py` (blank-slot monitor for X11 displays).

Shallow embedding of the classifier (`blank_metrics`, the 2x2 area-averaging
downscale of `capture_gray`), the per-monitor debounce state machine driven by
`main`'s tick loop, and the startup path of `main`.

Percentages are modelled in `ℚ`; every percentage value the theorems below
touch (0 and 100) is exactly representable as a Python float, and the float
expressions computing them (`count * 100.0 / total` with count equal to 0 or
to total) are exact at those points, so the rational model agrees with the
source arithmetic wherever it is used here.

A luminance sample (a numpy array of grayscale bytes) is modelled as its
dimensions `h w : ℕ` together with a pixel function `pix : ℕ → ℕ → ℕ`; only
the values `pix i j` with `i < h`, `j < w` are meaningful.
-/

-- ---------- Tuning constants (module-level globals of the script) ----------

def BLANK_PCT_MIN : ℚ := 97

def BLACK_THRESH : ℕ := 15

def WHITE_THRESH : ℕ := 240

def DEBOUNCE_CLEAR_OK_FRAMES : Int := 2

-- ---------- Blank classifier ----------

/-- Number of `j < w` with `p j = true`: one row of a numpy boolean mask sum. -/
def countRow (p : ℕ → Bool) : ℕ → ℕ
  | 0 => 0
  | w + 1 => countRow p w + (if p w then 1 else 0)

/-- Number of pairs `i < h`, `j < w` with `p i j = true`: `(mask).sum()` over an
`h × w` array. -/
def countGrid (p : ℕ → ℕ → Bool) (w : ℕ) : ℕ → ℕ
  | 0 => 0
  | h + 1 => countGrid p w h + countRow (p h) w

/-- `blank_metrics(gray)`: returns `(black_pct, white_pct, is_blank_now)`.
`gray.size = h * w`; the division by `total` is guarded by the `total == 0`
early return exactly as in the source. -/
def blank_metrics (h w : ℕ) (pix : ℕ → ℕ → ℕ) : ℚ × ℚ × Bool :=
  let total := h * w
  if total = 0 then (0, 0, false)
  else
    let black_pct : ℚ := (countGrid (fun i j => decide (pix i j < BLACK_THRESH)) w h : ℚ) * 100 / total
    let white_pct : ℚ := (countGrid (fun i j => decide (WHITE_THRESH < pix i j)) w h : ℚ) * 100 / total
    (black_pct, white_pct,
      decide (BLANK_PCT_MIN ≤ black_pct) || decide (BLANK_PCT_MIN ≤ white_pct))

/-- The `DOWNSCALE = 0.5` branch of `capture_gray`: crop to even dimensions,
average each 2x2 block, truncate to integer (`.mean(...).astype(np.uint8)`;
the float mean of four bytes is exact, so `astype`'s truncation is floor,
i.e. `ℕ` division by 4). The result has dimensions `h / 2 × w / 2`. -/
def downsample2 (pix : ℕ → ℕ → ℕ) : ℕ → ℕ → ℕ :=
  fun i j =>
    (pix (2 * i) (2 * j) + pix (2 * i) (2 * j + 1) +
     pix (2 * i + 1) (2 * j) + pix (2 * i + 1) (2 * j + 1)) / 4

/-- Classification of a sample after the area-averaging downsampling step of
`capture_gray` (composition of the downscale with `blank_metrics`). -/
def classifyDownsampled (h w : ℕ) (pix : ℕ → ℕ → ℕ) : ℚ × ℚ × Bool :=
  blank_metrics (h / 2) (w / 2) (downsample2 pix)

-- ---------- Per-monitor state ----------

/-- The `Debounce` dataclass: per-monitor episode state. -/
structure Debounce where
  in_blank : Bool := false
  clear_left : Int := 0
  start_time : ℚ := 0
  last_black_pct : ℚ := 0
  last_white_pct : ℚ := 0
deriving Repr, DecidableEq

/-- One durable log record emitted inside the tick loop, tagged with the
monitor index it concerns. `startedLog` is the `logging.critical`
blank-detected record, `endedLog` the `logging.info` blank-ended record with
its duration, `errorLog` the `logging.error` capture-error record. -/
inductive LogLine where
  | errorLog (mon : ℕ)
  | startedLog (mon : ℕ) (time : ℚ)
  | endedLog (mon : ℕ) (time : ℚ) (duration : ℚ)
deriving Repr, DecidableEq

/-- The monitor index a log record concerns. -/
def LogLine.mon : LogLine → ℕ
  | .errorLog i => i
  | .startedLog i _ => i
  | .endedLog i _ _ => i

def isStartedLog : LogLine → Bool
  | .startedLog _ _ => true
  | _ => false

def isEndedLog : LogLine → Bool
  | .endedLog _ _ _ => true
  | _ => false

/-- The body of the per-monitor branch of the tick loop in `main`.
`inp = none` models `capture_gray` raising (the `except` branch: log the
error and `continue`); `inp = some (black_pct, white_pct)` models a
successful capture, with `blank_now` recomputed from the percentages exactly
as `blank_metrics` defines it. Returns the updated `Debounce` and the log
records emitted this tick for this monitor. -/
def stepRegion (i : ℕ) (db : Debounce) (now : ℚ) (inp : Option (ℚ × ℚ)) :
    Debounce × List LogLine :=
  match inp with
  | none => (db, [.errorLog i])
  | some (black_pct, white_pct) =>
    if BLANK_PCT_MIN ≤ black_pct ∨ BLANK_PCT_MIN ≤ white_pct then
      if db.in_blank then
        ({ db with last_black_pct := black_pct, last_white_pct := white_pct }, [])
      else
        ({ in_blank := true, clear_left := DEBOUNCE_CLEAR_OK_FRAMES,
           start_time := now, last_black_pct := black_pct,
           last_white_pct := white_pct }, [.startedLog i now])
    else
      if db.in_blank then
        let cl := db.clear_left - 1
        if cl ≤ 0 then
          ({ db with clear_left := cl, in_blank := false },
           [.endedLog i now (now - db.start_time)])
        else
          ({ db with clear_left := cl }, [])
      else (db, [])

/-- Driving one monitor's `Debounce` through a sequence of ticks, each tick a
pair of the wall-clock time `now` and that monitor's input for the tick. -/
def runRegion (i : ℕ) (db : Debounce) : List (ℚ × Option (ℚ × ℚ)) → Debounce × List LogLine
  | [] => (db, [])
  | (now, inp) :: rest =>
    let s := stepRegion i db now inp
    let r := runRegion i s.1 rest
    (r.1, s.2 ++ r.2)

/-- The `for i, m in enumerate(monitors)` loop of one tick, started at monitor
index `i0`: each monitor's state is updated from its own input
(`inputs` maps a monitor index to that monitor's capture outcome), and the
emitted log records are concatenated in monitor order. -/
def tickFrom (i0 : ℕ) (dbs : List Debounce) (now : ℚ) (inputs : ℕ → Option (ℚ × ℚ)) :
    List Debounce × List LogLine :=
  match dbs with
  | [] => ([], [])
  | db :: rest =>
    let s := stepRegion i0 db now (inputs i0)
    let r := tickFrom (i0 + 1) rest now inputs
    (s.1 :: r.1, s.2 ++ r.2)

/-- The `while True` loop of `main`: a list of ticks, each a wall-clock time
together with the per-monitor capture outcomes of that tick. -/
def runAll (dbs : List Debounce) : List (ℚ × (ℕ → Option (ℚ × ℚ))) → List Debounce × List LogLine
  | [] => (dbs, [])
  | (now, inputs) :: rest =>
    let s := tickFrom 0 dbs now inputs
    let r := runAll s.1 rest
    (r.1, s.2 ++ r.2)

-- ---------- Startup path of main ----------

/-- A monitor geometry as returned by `get_monitors` (the display name is
modelled as a numeric identifier; no claim depends on it). -/
structure Monitor where
  name : ℕ
  x : Int
  y : Int
  w : ℕ
  h : ℕ
deriving Repr, DecidableEq

/-- Startup-phase log records of `main`, in emission order. -/
inductive StartLog where
  | serviceStarted
  | noMonitorsWarning
  | monitorDetected (i : ℕ)
deriving Repr, DecidableEq

/-- What `main` has done by the time it either returns early or enters the
tick loop. -/
structure StartupOutcome where
  logs : List StartLog
  debounces : List Debounce
  enteredLoop : Bool
deriving Repr, DecidableEq

/-- The startup path of `main`, up to entering the `while True` loop: log
`service_started`; enumerate monitors; on an empty list log the warning and
return without creating any `Debounce` and without entering the loop;
otherwise log one `monitor_detected` per monitor, create one fresh `Debounce`
per monitor, and enter the loop. -/
def mainStartup (monitors : List Monitor) : StartupOutcome :=
  if monitors.isEmpty then
    { logs := [.serviceStarted, .noMonitorsWarning]
      debounces := []
      enteredLoop := false }
  else
    { logs := .serviceStarted :: (List.range monitors.length).map .monitorDetected
      debounces := monitors.map (fun _ => {})
      enteredLoop := true }

-- ---------- Counting lemmas for the classifier ----------

lemma countRow_true {p : ℕ → Bool} {w : ℕ} (hp : ∀ j < w, p j = true) :
    countRow p w = w := by
  induction w with
  | zero => rfl
  | succ n ih =>
    have hn : ∀ j < n, p j = true := fun j hj => hp j (Nat.lt_succ_of_lt hj)
    simp [countRow, ih hn, hp n (Nat.lt_succ_self n)]

lemma countRow_false {p : ℕ → Bool} {w : ℕ} (hp : ∀ j < w, p j = false) :
    countRow p w = 0 := by
  induction w with
  | zero => rfl
  | succ n ih =>
    have hn : ∀ j < n, p j = false := fun j hj => hp j (Nat.lt_succ_of_lt hj)
    simp [countRow, ih hn, hp n (Nat.lt_succ_self n)]

lemma countGrid_true {p : ℕ → ℕ → Bool} {w h : ℕ}
    (hp : ∀ i < h, ∀ j < w, p i j = true) : countGrid p w h = h * w := by
  induction h with
  | zero => simp [countGrid]
  | succ n ih =>
    have hn : ∀ i < n, ∀ j < w, p i j = true :=
      fun i hi => hp i (Nat.lt_succ_of_lt hi)
    have hrow : countRow (p n) w = w := countRow_true (hp n (Nat.lt_succ_self n))
    simp [countGrid, ih hn, hrow, Nat.succ_mul]

lemma countGrid_false {p : ℕ → ℕ → Bool} {w h : ℕ}
    (hp : ∀ i < h, ∀ j < w, p i j = false) : countGrid p w h = 0 := by
  induction h with
  | zero => rfl
  | succ n ih =>
    have hn : ∀ i < n, ∀ j < w, p i j = false :=
      fun i hi => hp i (Nat.lt_succ_of_lt hi)
    have hrow : countRow (p n) w = 0 := countRow_false (hp n (Nat.lt_succ_self n))
    simp [countGrid, ih hn, hrow]

/-- On a non-empty sample, `blank_metrics` takes the division branch. -/
lemma blank_metrics_pos (h w : ℕ) (pix : ℕ → ℕ → ℕ) (hpos : h * w ≠ 0) :
    blank_metrics h w pix =
      (((countGrid (fun i j => decide (pix i j < BLACK_THRESH)) w h : ℚ) * 100 / (h * w : ℕ)),
       ((countGrid (fun i j => decide (WHITE_THRESH < pix i j)) w h : ℚ) * 100 / (h * w : ℕ)),
       (decide (BLANK_PCT_MIN ≤ ((countGrid (fun i j => decide (pix i j < BLACK_THRESH)) w h : ℚ) * 100 / (h * w : ℕ))) ||
        decide (BLANK_PCT_MIN ≤ ((countGrid (fun i j => decide (WHITE_THRESH < pix i j)) w h : ℚ) * 100 / (h * w : ℕ))))) := by
  simp [blank_metrics, hpos]

/-- A uniform non-empty sample classifies by its single pixel value alone. -/
lemma blank_metrics_uniform (h w v : ℕ) (pix : ℕ → ℕ → ℕ) (hpos : h * w ≠ 0)
    (huni : ∀ i < h, ∀ j < w, pix i j = v) :
    blank_metrics h w pix =
      ((if v < BLACK_THRESH then 100 else 0),
       (if WHITE_THRESH < v then 100 else 0),
       (decide (v < BLACK_THRESH) || decide (WHITE_THRESH < v))) := by
  have hfull : ((h * w : ℕ) : ℚ) ≠ 0 := Nat.cast_ne_zero.mpr hpos
  have hblack : countGrid (fun i j => decide (pix i j < BLACK_THRESH)) w h =
      if v < BLACK_THRESH then h * w else 0 := by
    by_cases hv : v < BLACK_THRESH
    · rw [if_pos hv]
      exact countGrid_true (fun i hi j hj => by simp [huni i hi j hj, hv])
    · rw [if_neg hv]
      exact countGrid_false (fun i hi j hj => by simp [huni i hi j hj, hv])
  have hwhite : countGrid (fun i j => decide (WHITE_THRESH < pix i j)) w h =
      if WHITE_THRESH < v then h * w else 0 := by
    by_cases hv : WHITE_THRESH < v
    · rw [if_pos hv]
      exact countGrid_true (fun i hi j hj => by simp [huni i hi j hj, hv])
    · rw [if_neg hv]
      exact countGrid_false (fun i hi j hj => by simp [huni i hi j hj, hv])
  rw [blank_metrics_pos h w pix hpos, hblack, hwhite]
  by_cases hb : v < BLACK_THRESH
  · have hnw : ¬ WHITE_THRESH < v := by
      simp [BLACK_THRESH] at hb; simp [WHITE_THRESH]; omega
    rw [if_pos hb, if_neg hnw, if_pos hb, if_neg hnw]
    rw [mul_div_cancel_left₀ (100 : ℚ) hfull]
    norm_num [BLANK_PCT_MIN, hb, hnw]
  · by_cases hw2 : WHITE_THRESH < v
    · rw [if_neg hb, if_pos hw2, if_neg hb, if_pos hw2]
      rw [mul_div_cancel_left₀ (100 : ℚ) hfull]
      norm_num [BLANK_PCT_MIN, hb, hw2]
    · rw [if_neg hb, if_neg hw2, if_neg hb, if_neg hw2]
      norm_num [BLANK_PCT_MIN, hb, hw2]

/-- Area-averaging a uniform sample yields a uniform sample of the same value. -/
lemma downsample2_uniform (h w v : ℕ) (pix : ℕ → ℕ → ℕ)
    (huni : ∀ i < h, ∀ j < w, pix i j = v) :
    ∀ i < h / 2, ∀ j < w / 2, downsample2 pix i j = v := by
  intro i hi j hj
  have h1 : 2 * i < h := by omega
  have h2 : 2 * i + 1 < h := by omega
  have h3 : 2 * j < w := by omega
  have h4 : 2 * j + 1 < w := by omega
  unfold downsample2
  rw [huni _ h1 _ h3, huni _ h1 _ h4, huni _ h2 _ h3, huni _ h2 _ h4]
  omega

-- ---------- Per-region isolation of the tick loop ----------

/-- Every log record a monitor's loop-body emits is tagged with that monitor's
index. -/
lemma stepRegion_mon (i : ℕ) (db : Debounce) (now : ℚ) (inp : Option (ℚ × ℚ)) :
    ∀ l ∈ (stepRegion i db now inp).2, l.mon = i := by
  rcases inp with _ | ⟨black, white⟩
  · intro l hl
    simp only [stepRegion, List.mem_singleton] at hl
    simp [hl, LogLine.mon]
  · intro l hl
    simp only [stepRegion] at hl
    split_ifs at hl <;> simp_all [LogLine.mon]

/-- Monitors processed from index `i0` onwards only emit records tagged `≥ i0`. -/
lemma tickFrom_mon_ge (dbs : List Debounce) (i0 : ℕ) (now : ℚ)
    (inputs : ℕ → Option (ℚ × ℚ)) :
    ∀ l ∈ (tickFrom i0 dbs now inputs).2, i0 ≤ l.mon := by
  induction dbs generalizing i0 with
  | nil => intro l hl; simp [tickFrom] at hl
  | cons db rest ih =>
    intro l hl
    simp only [tickFrom, List.mem_append] at hl
    rcases hl with hl | hl
    · exact (stepRegion_mon i0 db now (inputs i0) l hl).ge
    · exact le_trans (Nat.le_succ i0) (ih (i0 + 1) l hl)

/-- The state list produced by one tick, pointwise: position `p` holds the
step of monitor `i0 + p` on its own input. -/
lemma tickFrom_states (dbs : List Debounce) (i0 p : ℕ) (now : ℚ)
    (inputs : ℕ → Option (ℚ × ℚ)) :
    ((tickFrom i0 dbs now inputs).1)[p]? =
      (dbs[p]?).map (fun db => (stepRegion (i0 + p) db now (inputs (i0 + p))).1) := by
  induction dbs generalizing i0 p with
  | nil => simp [tickFrom]
  | cons db rest ih =>
    cases p with
    | zero => simp [tickFrom]
    | succ q =>
      simp only [tickFrom, List.getElem?_cons_succ]
      rw [ih (i0 + 1) q, show i0 + 1 + q = i0 + (q + 1) by omega]

/-- The log records of one tick tagged with monitor index `i0 + p` are exactly
the records of that monitor's own step. -/
lemma tickFrom_filter (dbs : List Debounce) (i0 p : ℕ) (now : ℚ)
    (inputs : ℕ → Option (ℚ × ℚ)) :
    ((tickFrom i0 dbs now inputs).2).filter (fun l => l.mon == i0 + p) =
      ((dbs[p]?).map (fun db => (stepRegion (i0 + p) db now (inputs (i0 + p))).2)).getD [] := by
  induction dbs generalizing i0 p with
  | nil => simp [tickFrom]
  | cons db rest ih =>
    simp only [tickFrom, List.filter_append]
    cases p with
    | zero =>
      have h1 : (stepRegion i0 db now (inputs i0)).2.filter (fun l => l.mon == i0 + 0) =
          (stepRegion i0 db now (inputs i0)).2 := by
        apply List.filter_eq_self.mpr
        intro l hl
        simp [stepRegion_mon i0 db now (inputs i0) l hl]
      have h2 : ((tickFrom (i0 + 1) rest now inputs).2).filter
          (fun l => l.mon == i0 + 0) = [] := by
        apply List.filter_eq_nil_iff.mpr
        intro l hl
        have hge := tickFrom_mon_ge rest (i0 + 1) now inputs l hl
        simp only [beq_iff_eq]
        omega
      rw [h1, h2]
      simp
    | succ q =>
      have h1 : (stepRegion i0 db now (inputs i0)).2.filter
          (fun l => l.mon == i0 + (q + 1)) = [] := by
        apply List.filter_eq_nil_iff.mpr
        intro l hl
        have heq := stepRegion_mon i0 db now (inputs i0) l hl
        simp only [beq_iff_eq]
        omega
      rw [h1]
      have h2 := ih (i0 + 1) q
      rw [show i0 + 1 + q = i0 + (q + 1) by omega] at h2
      rw [h2]
      simp

/-- Restriction of a run's per-tick inputs to a single monitor index. -/
def project (j : ℕ) (ticks : List (ℚ × (ℕ → Option (ℚ × ℚ)))) :
    List (ℚ × Option (ℚ × ℚ)) :=
  ticks.map (fun t => (t.1, t.2 j))

/-- Projection of the full loop onto one monitor: monitor `j`'s state after a
run, and the log records tagged `j`, are exactly what the single-monitor
machine produces from monitor `j`'s own inputs. -/
lemma runAll_proj (ticks : List (ℚ × (ℕ → Option (ℚ × ℚ)))) :
    ∀ (dbs : List Debounce) (j : ℕ) (db : Debounce), dbs[j]? = some db →
      ((runAll dbs ticks).1)[j]? = some (runRegion j db (project j ticks)).1 ∧
      ((runAll dbs ticks).2).filter (fun l => l.mon == j) =
        (runRegion j db (project j ticks)).2 := by
  induction ticks with
  | nil =>
    intro dbs j db hj
    simp [runAll, runRegion, project, hj]
  | cons t rest ih =>
    rcases t with ⟨now, inputs⟩
    intro dbs j db hj
    have hstate : ((tickFrom 0 dbs now inputs).1)[j]? =
        some (stepRegion j db now (inputs j)).1 := by
      rw [tickFrom_states dbs 0 j now inputs]
      simp [hj]
    have hfilter : ((tickFrom 0 dbs now inputs).2).filter (fun l => l.mon == j) =
        (stepRegion j db now (inputs j)).2 := by
      have h := tickFrom_filter dbs 0 j now inputs
      simp only [Nat.zero_add] at h
      simp [h, hj]
    obtain ⟨ih1, ih2⟩ :=
      ih (tickFrom 0 dbs now inputs).1 j (stepRegion j db now (inputs j)).1 hstate
    constructor
    · simp only [runAll, project, List.map_cons]
      simp only [project] at ih1
      exact ih1
    · simp only [runAll, project, List.map_cons, List.filter_append, runRegion]
      simp only [project] at ih2
      rw [hfilter, ih2]

-- ---------- Claim theorems ----------

/-- Claim C1, counterexample: on a blank tick while the tracker is active
(`black_pct = 100` classifies blank, `in_blank = true`), the code does NOT
reset the consecutive-clear debounce budget to its full configured value:
with `clear_left = 1` before the tick, it is still `1` (not
`DEBOUNCE_CLEAR_OK_FRAMES = 2`) after the tick. -/
theorem C1_blank_active_no_reset_cex :
    ((BLANK_PCT_MIN ≤ (100 : ℚ) ∨ BLANK_PCT_MIN ≤ (0 : ℚ))) ∧
    (stepRegion 0 { in_blank := true, clear_left := 1, start_time := 5 } 6
        (some (100, 0))) =
      ({ in_blank := true, clear_left := 1, start_time := 5,
         last_black_pct := 100, last_white_pct := 0 }, []) ∧
    (stepRegion 0 { in_blank := true, clear_left := 1, start_time := 5 } 6
        (some (100, 0))).1.clear_left ≠ DEBOUNCE_CLEAR_OK_FRAMES := by
  decide

/-- Claim C1, amended: for every tick classified blank while the tracker is
active, the tracker remains active, the debounce budget `clear_left` is left
unchanged (it is NOT reset to its full configured value), `last_black_pct`
and `last_white_pct` are updated to the tick's measurements, and no event is
emitted. -/
theorem C1_blank_active_amended (i : ℕ) (db : Debounce) (now black white : ℚ)
    (hact : db.in_blank = true)
    (hblank : BLANK_PCT_MIN ≤ black ∨ BLANK_PCT_MIN ≤ white) :
    stepRegion i db now (some (black, white)) =
      ({ db with last_black_pct := black, last_white_pct := white }, []) := by
  simp only [stepRegion]
  rw [if_pos hblank, if_pos hact]

/-- Concrete instance of the amended claim C1. -/
theorem C1_blank_active_witness :
    (({ in_blank := true, clear_left := 1, start_time := 5 } : Debounce).in_blank = true) ∧
    (BLANK_PCT_MIN ≤ (100 : ℚ) ∨ BLANK_PCT_MIN ≤ (0 : ℚ)) ∧
    stepRegion 0 { in_blank := true, clear_left := 1, start_time := 5 } 6 (some (100, 0)) =
      ({ in_blank := true, clear_left := 1, start_time := 5,
         last_black_pct := 100, last_white_pct := 0 }, []) :=
  ⟨by decide, by decide,
   C1_blank_active_amended 0 { in_blank := true, clear_left := 1, start_time := 5 }
     6 100 0 (by decide) (by decide)⟩

/-- Claim C2, counterexample: with debounce count 2, the classification
sequence blank, blank, clear, clear, blank (ticks at times 1..5) does NOT
yield exactly one started event and no ended event: the two consecutive
clear ticks at times 3 and 4 exhaust the budget, ending the episode at
tick 4, and the blank tick at time 5 starts a second episode. -/
theorem C2_sequence_cex :
    ¬((runRegion 0 {} [(1, some (100, 0)), (2, some (100, 0)), (3, some (0, 0)),
          (4, some (0, 0)), (5, some (100, 0))]).2.countP isStartedLog = 1 ∧
      (runRegion 0 {} [(1, some (100, 0)), (2, some (100, 0)), (3, some (0, 0)),
          (4, some (0, 0)), (5, some (100, 0))]).2.countP isEndedLog = 0) := by
  decide

/-- Claim C2, amended: with debounce count 2, the sequence blank, blank,
clear, clear, blank from the idle state yields two started events (at ticks
1 and 5) and one ended event, emitted at tick 4 when the second consecutive
clear tick exhausts the budget, with duration `t4 - t1`. -/
theorem C2_sequence_amended (t1 t2 t3 t4 t5 : ℚ) :
    (runRegion 0 {} [(t1, some (100, 0)), (t2, some (100, 0)), (t3, some (0, 0)),
        (t4, some (0, 0)), (t5, some (100, 0))]).2 =
      [.startedLog 0 t1, .endedLog 0 t4 (t4 - t1), .startedLog 0 t5] ∧
    (runRegion 0 {} [(t1, some (100, 0)), (t2, some (100, 0)), (t3, some (0, 0)),
        (t4, some (0, 0)), (t5, some (100, 0))]).2.countP isStartedLog = 2 ∧
    (runRegion 0 {} [(t1, some (100, 0)), (t2, some (100, 0)), (t3, some (0, 0)),
        (t4, some (0, 0)), (t5, some (100, 0))]).2.countP isEndedLog = 1 :=
  ⟨rfl, rfl, rfl⟩

/-- Claim C3: with debounce count 2, the sequence blank, clear, clear, clear
at wall-clock times `t1 t2 t3 t4` yields exactly one started event (at `t1`)
followed by exactly one ended event at `t3` (the clear tick on which
`clear_left` reaches zero), whose reported duration is `t3 - t1` — the span
from the opening blank tick to the tick where the budget hits zero, not to
the final clear tick `t4`. -/
theorem C3_duration_span (t1 t2 t3 t4 : ℚ) :
    (runRegion 0 {} [(t1, some (100, 0)), (t2, some (0, 0)), (t3, some (0, 0)),
        (t4, some (0, 0))]).2 =
      [.startedLog 0 t1, .endedLog 0 t3 (t3 - t1)] := by
  rfl

/-- Claim C4: a capture error on a tick leaves the monitor's entire episode
state exactly as it was, emits exactly the error report, and emits no
started or ended event. -/
theorem C4_capture_error_skip (i : ℕ) (db : Debounce) (now : ℚ) :
    stepRegion i db now none = (db, [.errorLog i]) ∧
    (stepRegion i db now none).2.countP isStartedLog = 0 ∧
    (stepRegion i db now none).2.countP isEndedLog = 0 :=
  ⟨rfl, rfl, rfl⟩

/-- Claim C5: two-run noninterference over per-region inputs. For any monitor
index `j` present in the state list, two runs whose per-tick inputs agree on
monitor `j` (they may differ arbitrarily on every other monitor, including a
capture failure on one run and a successful capture on the other) leave
monitor `j` with the same episode state and make it emit the same sequence of
log records. -/
theorem C5_region_noninterference (dbs : List Debounce) (j : ℕ) (db : Debounce)
    (hj : dbs[j]? = some db)
    (ticks ticks2 : List (ℚ × (ℕ → Option (ℚ × ℚ))))
    (hagree : project j ticks = project j ticks2) :
    ((runAll dbs ticks).1)[j]? = ((runAll dbs ticks2).1)[j]? ∧
    ((runAll dbs ticks).2).filter (fun l => l.mon == j) =
      ((runAll dbs ticks2).2).filter (fun l => l.mon == j) := by
  obtain ⟨h1, h2⟩ := runAll_proj ticks dbs j db hj
  obtain ⟨h3, h4⟩ := runAll_proj ticks2 dbs j db hj
  exact ⟨by rw [h1, h3, hagree], by rw [h2, h4, hagree]⟩

/-- Concrete instance of claim C5: two monitors, one tick; in the first run
monitor 0's capture fails, in the second it succeeds with a clear frame;
monitor 1 sees the same blank frame in both runs, and its state and emitted
records are identical across the two runs. -/
theorem C5_region_noninterference_witness :
    ([({} : Debounce), {}][1]? = some ({} : Debounce)) ∧
    project 1 [((1 : ℚ), fun i => if i = 0 then none else some ((100 : ℚ), (0 : ℚ)))] =
      project 1 [((1 : ℚ), fun i => if i = 0 then some ((0 : ℚ), (0 : ℚ))
                  else some ((100 : ℚ), (0 : ℚ)))] ∧
    (((runAll [{}, {}] [((1 : ℚ), fun i => if i = 0 then none
          else some ((100 : ℚ), (0 : ℚ)))]).1)[1]? =
        ((runAll [{}, {}] [((1 : ℚ), fun i => if i = 0 then some ((0 : ℚ), (0 : ℚ))
          else some ((100 : ℚ), (0 : ℚ)))]).1)[1]? ∧
      ((runAll [{}, {}] [((1 : ℚ), fun i => if i = 0 then none
          else some ((100 : ℚ), (0 : ℚ)))]).2).filter (fun l => l.mon == 1) =
        ((runAll [{}, {}] [((1 : ℚ), fun i => if i = 0 then some ((0 : ℚ), (0 : ℚ))
          else some ((100 : ℚ), (0 : ℚ)))]).2).filter (fun l => l.mon == 1)) :=
  ⟨rfl, rfl,
   C5_region_noninterference [{}, {}] 1 {} rfl _ _ rfl⟩

/-- Claim C6: a non-empty sample whose pixels all lie strictly below the black
threshold classifies blank with `black_pct = 100` (and `white_pct = 0`);
symmetrically, a non-empty sample whose pixels all lie strictly above the
white threshold classifies blank with `white_pct = 100`. -/
theorem C6_uniform_extremes (h w : ℕ) (pix : ℕ → ℕ → ℕ) (hpos : h * w ≠ 0) :
    ((∀ i < h, ∀ j < w, pix i j < BLACK_THRESH) →
      blank_metrics h w pix = (100, 0, true)) ∧
    ((∀ i < h, ∀ j < w, WHITE_THRESH < pix i j) →
      blank_metrics h w pix = (0, 100, true)) := by
  have hfull : ((h * w : ℕ) : ℚ) ≠ 0 := Nat.cast_ne_zero.mpr hpos
  have h100 : (((h * w : ℕ) : ℚ) * 100 / ((h * w : ℕ) : ℚ)) = 100 :=
    mul_div_cancel_left₀ 100 hfull
  constructor
  · intro hb
    have hbc : countGrid (fun i j => decide (pix i j < BLACK_THRESH)) w h = h * w :=
      countGrid_true (fun i hi j hj => by simp [hb i hi j hj])
    have hwc : countGrid (fun i j => decide (WHITE_THRESH < pix i j)) w h = 0 :=
      countGrid_false (fun i hi j hj => by
        have hv := hb i hi j hj
        simp only [decide_eq_false_iff_not, not_lt]
        simp only [BLACK_THRESH] at hv
        simp only [WHITE_THRESH]
        omega)
    rw [blank_metrics_pos h w pix hpos, hbc, hwc, h100]
    norm_num [BLANK_PCT_MIN]
  · intro hw2
    have hbc : countGrid (fun i j => decide (pix i j < BLACK_THRESH)) w h = 0 :=
      countGrid_false (fun i hi j hj => by
        have hv := hw2 i hi j hj
        simp only [decide_eq_false_iff_not, not_lt]
        simp only [WHITE_THRESH] at hv
        simp only [BLACK_THRESH]
        omega)
    have hwc : countGrid (fun i j => decide (WHITE_THRESH < pix i j)) w h = h * w :=
      countGrid_true (fun i hi j hj => by simp [hw2 i hi j hj])
    rw [blank_metrics_pos h w pix hpos, hbc, hwc, h100]
    norm_num [BLANK_PCT_MIN]

/-- Concrete instance of claim C6: a 2x2 all-zero (all-black) sample. -/
theorem C6_uniform_extremes_witness :
    (2 * 2 ≠ 0) ∧
    ((∀ i < 2, ∀ j < 2, (fun _ _ => 0 : ℕ → ℕ → ℕ) i j < BLACK_THRESH) →
      blank_metrics 2 2 (fun _ _ => 0) = (100, 0, true)) ∧
    ((∀ i < 2, ∀ j < 2, WHITE_THRESH < (fun _ _ => 0 : ℕ → ℕ → ℕ) i j) →
      blank_metrics 2 2 (fun _ _ => 0) = (0, 100, true)) :=
  ⟨by decide, (C6_uniform_extremes 2 2 (fun _ _ => 0) (by decide)).1,
   (C6_uniform_extremes 2 2 (fun _ _ => 0) (by decide)).2⟩

/-- Claim C7, counterexample: the 1x1 uniform all-black sample classifies
blank, but its area-averaged downsample is the empty 0x0 sample, which
classifies not-blank — downsampling changes the classification of this
uniform sample. -/
theorem C7_downsample_cex :
    (blank_metrics 1 1 (fun _ _ => 0)).2.2 = true ∧
    classifyDownsampled 1 1 (fun _ _ => 0) ≠ blank_metrics 1 1 (fun _ _ => 0) := by
  have h1 : blank_metrics 1 1 (fun _ _ => 0) = (100, 0, true) := by
    rw [blank_metrics_uniform 1 1 0 (fun _ _ => 0) (by norm_num) (fun i _ j _ => rfl)]
    norm_num [BLACK_THRESH, WHITE_THRESH]
  have h2 : classifyDownsampled 1 1 (fun _ _ => 0) = (0, 0, false) := by
    simp [classifyDownsampled, blank_metrics]
  rw [h1, h2]
  simp

/-- Claim C7, amended: for every uniform sample both of whose dimensions are
at least 2 (so that the downsampled array is non-empty), applying the
area-averaging downsampling step before classification yields the same
classification as classifying the sample without downsampling. -/
theorem C7_downsample_amended (h w v : ℕ) (pix : ℕ → ℕ → ℕ)
    (hh : 2 ≤ h) (hw2 : 2 ≤ w)
    (huni : ∀ i < h, ∀ j < w, pix i j = v) :
    classifyDownsampled h w pix = blank_metrics h w pix := by
  have hpos : h * w ≠ 0 := Nat.mul_ne_zero (by omega) (by omega)
  have hpos2 : (h / 2) * (w / 2) ≠ 0 := Nat.mul_ne_zero (by omega) (by omega)
  rw [classifyDownsampled,
      blank_metrics_uniform (h / 2) (w / 2) v (downsample2 pix) hpos2
        (downsample2_uniform h w v pix huni),
      blank_metrics_uniform h w v pix hpos huni]

/-- Concrete instance of the amended claim C7: a 2x3 uniform sample of
value 7. -/
theorem C7_downsample_witness :
    (2 ≤ 2) ∧ (2 ≤ 3) ∧
    (∀ i < 2, ∀ j < 3, (fun _ _ => 7 : ℕ → ℕ → ℕ) i j = 7) ∧
    classifyDownsampled 2 3 (fun _ _ => 7) = blank_metrics 2 3 (fun _ _ => 7) :=
  ⟨by decide, by decide, by decide,
   C7_downsample_amended 2 3 7 (fun _ _ => 7) (by decide) (by decide) (by decide)⟩

/-- Claim C8: when region enumeration returns an empty list, `main` creates
zero `Debounce` instances, logs the no-monitors warning exactly once, and
returns without entering the tick loop. -/
theorem C8_no_monitors :
    (mainStartup []).debounces.length = 0 ∧
    (mainStartup []).logs.count .noMonitorsWarning = 1 ∧
    (mainStartup []).enteredLoop = false := by
  decide

/-- Claim C9: on the empty luminance sample (zero pixels) `blank_metrics` is
total and returns `(0, 0, false)`; the division by the pixel count sits in
the branch reached only when the count is non-zero. -/
theorem C9_empty_sample (h w : ℕ) (pix : ℕ → ℕ → ℕ) (hz : h * w = 0) :
    blank_metrics h w pix = (0, 0, false) := by
  simp [blank_metrics, hz]

/-- Concrete instance of claim C9: a 0x3 sample. -/
theorem C9_empty_sample_witness :
    (0 * 3 = 0) ∧ blank_metrics 0 3 (fun _ _ => 5) = (0, 0, false) :=
  ⟨rfl, C9_empty_sample 0 3 (fun _ _ => 5) rfl⟩

/-- Claim C10: a clear tick processed while a monitor is active whose
decrement leaves the budget still positive changes only `clear_left`:
`in_blank`, `start_time`, `last_black_pct` and `last_white_pct` are all
unchanged (the record update touches no other field), and no event is
emitted — so the duration eventually reported still spans from the episode's
original start. -/
theorem C10_clear_frame_effect (i : ℕ) (db : Debounce) (now black white : ℚ)
    (hact : db.in_blank = true)
    (hclear : ¬(BLANK_PCT_MIN ≤ black ∨ BLANK_PCT_MIN ≤ white))
    (hleft : 0 < db.clear_left - 1) :
    stepRegion i db now (some (black, white)) =
      ({ db with clear_left := db.clear_left - 1 }, []) := by
  simp only [stepRegion]
  rw [if_neg hclear, if_pos hact, if_neg (show ¬(db.clear_left - 1 ≤ 0) by omega)]

/-- Concrete instance of claim C10: an active monitor with a budget of 2
takes a clear tick; only `clear_left` drops to 1. -/
theorem C10_clear_frame_effect_witness :
    (({ in_blank := true, clear_left := 2, start_time := 1,
        last_black_pct := 100 } : Debounce).in_blank = true) ∧
    ¬(BLANK_PCT_MIN ≤ (0 : ℚ) ∨ BLANK_PCT_MIN ≤ (0 : ℚ)) ∧
    (0 : Int) < ({ in_blank := true, clear_left := 2, start_time := 1,
                   last_black_pct := 100 } : Debounce).clear_left - 1 ∧
    stepRegion 3 { in_blank := true, clear_left := 2, start_time := 1,
                   last_black_pct := 100 } 7 (some (0, 0)) =
      ({ in_blank := true, clear_left := 1, start_time := 1,
         last_black_pct := 100 }, []) :=
  ⟨by decide, by decide, by decide,
   C10_clear_frame_effect 3 { in_blank := true, clear_left := 2, start_time := 1,
                              last_black_pct := 100 } 7 0 0
     (by decide) (by decide) (by decide)⟩
